import Mathlib

/-! Shallow embedding of the Midea AC LAN wire-protocol codec
(`midea/core/message.py` and `midea/devices/ea/message.py`).

Bytes are modelled as `Nat` (Python ints restricted to 0..255 by the wire
format; overflow-relevant operations carry explicit `% 256`).  Byte strings
are `List Nat`.  Python `bytearray` indexing `b[i]`, which raises
`IndexError` out of range, is modelled by `pyGet` returning
`Except ParseError Nat`; Python slices, which never raise, are modelled by
`List.drop`/`List.take`.  Fallible constructors return `Except ParseError _`.
-/

namespace Midea

/-- Exceptions raised by the message layer: `MessageLenError` from
`MessageResponse.__init__`, and Python's built-in `IndexError` from
out-of-range `bytearray` indexing. -/
inductive ParseError where
  | messageLenError
  | indexError
  deriving DecidableEq, Repr

/-- Python `body[i]`: the element at index `i`, raising `IndexError` when
out of range. -/
def pyGet (l : List Nat) (i : Nat) : Except ParseError Nat :=
  match l[i]? with
  | some v => Except.ok v
  | none => Except.error ParseError.indexError

/-- `MessageBase.checksum(data) = (~sum(data) + 1) & 0xff`.  On Python's
arbitrary-precision ints, `~s + 1 = -s` and `& 0xff` of a negative number
is its value modulo 256, hence `(-sum(data)) mod 256`. -/
def checksum (data : List Nat) : Nat :=
  ((-(data.sum : Int)) % 256).toNat

/-- `MessageRequest.header`: the fixed 10-byte header
`[0xAA, 10+len(body), device_type, 0, 0, 0, 0, 0, device_protocol_version,
message_type]`. -/
def requestHeader (dpv dt mt bodyLen : Nat) : List Nat :=
  [0xAA, 10 + bodyLen, dt, 0x00, 0x00, 0x00, 0x00, 0x00, dpv, mt]

/-- `MessageRequest.body`: the optional `body_type` byte followed by the
subclass payload `_body`. -/
def requestBody (bt : Option Nat) (pbody : List Nat) : List Nat :=
  (match bt with
   | some b => [b]
   | none => []) ++ pbody

/-- Common serialization core: `stream = header + body;
stream.append(checksum(stream[1:]))`. -/
def serializeWith (dpv dt mt : Nat) (body : List Nat) : List Nat :=
  let stream := requestHeader dpv dt mt body.length ++ body
  stream ++ [checksum (stream.drop 1)]

/-- `MessageRequest.serialize` for a generic request whose body is the
optional `body_type` byte followed by the payload. -/
def MessageRequest.serialize (dpv dt mt : Nat) (bt : Option Nat)
    (pbody : List Nat) : List Nat :=
  serializeWith dpv dt mt (requestBody bt pbody)

/-- `MessageQuestCustom.serialize`: the `body` property is overridden to
return `cmd_body` verbatim (`body_type` is `None`, `_body` unused), with
`device_protocol_version = 0` and `message_type = cmd_type`. -/
def MessageQuestCustom.serialize (dt cmdType : Nat)
    (cmdBody : List Nat) : List Nat :=
  serializeWith 0 dt cmdType cmdBody

/-- A parsed `MessageResponse`: header fields read at fixed offsets and the
raw body `message[10:-1]`, whose first byte is the `body_type`. -/
structure MessageResponse where
  header : List Nat
  deviceProtocolVersion : Nat
  messageType : Nat
  deviceType : Nat
  body : List Nat
  bodyType : Nat
  deriving DecidableEq, Repr

/-- `MessageResponse.__init__`: raises `MessageLenError` when the input is
`None` or shorter than 11 bytes; then `header = message[:10]`,
`device_protocol_version = header[8]`, `message_type = header[-1]`,
`device_type = header[2]`, `body = message[10:-1]`, and
`body_type = body[0]` (an `IndexError` when the body is empty).  The
offsets 2, 8, 9 always lie inside the 10-byte header here, so `getD` with
default 0 coincides with Python's raising indexing. -/
def MessageResponse.parse (message : Option (List Nat)) :
    Except ParseError MessageResponse :=
  match message with
  | none => Except.error ParseError.messageLenError
  | some m =>
    if m.length < 11 then Except.error ParseError.messageLenError
    else
      let header := m.take 10
      let body := (m.drop 10).dropLast
      match body.head? with
      | none => Except.error ParseError.indexError
      | some bt =>
        Except.ok
          { header := header
            deviceProtocolVersion := header.getD 8 0
            messageType := header.getD 9 0
            deviceType := header.getD 2 0
            body := body
            bodyType := bt }

/-- `MessageSubtypeResponse` adds the optional `sub_type` field on top of
the generic response. -/
structure SubtypeResponse where
  resp : MessageResponse
  subType : Option Nat
  deriving DecidableEq, Repr

/-- `MessageSubtypeResponse.__init__`: after the generic parse, when
`message_type == querySubtype (0xA0)` it sets
`sub_type = (body[2] if len(body) > 2 else 0) + ((body[3] << 8) if
len(body) > 3 else 0)` where `body = message[10:-1]`; otherwise no
`sub_type` attribute exists. -/
def MessageSubtypeResponse.parse (message : Option (List Nat)) :
    Except ParseError SubtypeResponse :=
  match MessageResponse.parse message with
  | Except.error e => Except.error e
  | Except.ok r =>
    if r.messageType = 0xA0 then
      Except.ok { resp := r
                  subType := some (r.body.getD 2 0 + r.body.getD 3 0 * 2 ^ 8) }
    else
      Except.ok { resp := r, subType := none }

/-- `NewProtocolMessageBody.__init__`: `pack_len` is 4 when the body-type
marker is `0xB5`, else 5. -/
def packLenOf (bt : Nat) : Nat :=
  if bt = 0xB5 then 4 else 5

/-- `NewProtocolMessageBody.pack(param, value, pack_len)`:
`pack_len = 4` emits `[param & 0xFF, param >> 8, len(value)] + value`;
otherwise `[param & 0xFF, param >> 8, 0x00, len(value)] + value`. -/
def NewProtocolMessageBody.pack (param : Nat) (value : List Nat)
    (packLen : Nat) : List Nat :=
  if packLen = 4 then
    (param &&& 0xFF) :: (param >>> 8) :: value.length :: value
  else
    (param &&& 0xFF) :: (param >>> 8) :: 0x00 :: value.length :: value

/-- Python dict assignment `result[param] = value`: replaces the value at
an existing key in place, otherwise appends the new binding at the end. -/
def dictInsert (l : List (Nat × List Nat)) (k : Nat) (v : List Nat) :
    List (Nat × List Nat) :=
  match l with
  | [] => [(k, v)]
  | (k', v') :: t => if k' = k then (k, v) :: t else (k', v') :: dictInsert t k v

/-- The loop body of `NewProtocolMessageBody.parse` before the
`except IndexError` handler: one iteration per remaining count `n`, reading
`param = data[pos] + (data[pos+1] << 8)`, advancing one extra byte when
`pack_len == 5`, reading `length = data[pos+2]`, storing the (possibly
slice-truncated) value when `length > 0`, and advancing `pos` by
`3 + length`.  An out-of-range indexed read is `Except.error` carrying the
entries accumulated so far; slices never raise. -/
def npLoop (pl : Nat) (data : List Nat) :
    Nat → Nat → List (Nat × List Nat) →
    Except (List (Nat × List Nat)) (List (Nat × List Nat))
  | _, 0, acc => Except.ok acc
  | pos, n + 1, acc =>
    match data[pos]? with
    | none => Except.error acc
    | some lo =>
      match data[pos + 1]? with
      | none => Except.error acc
      | some hi =>
        let param := lo + (hi <<< 8)
        let pos' := if pl = 5 then pos + 1 else pos
        match data[pos' + 2]? with
        | none => Except.error acc
        | some len =>
          if 0 < len then
            npLoop pl data (pos' + 3 + len) n
              (dictInsert acc param ((data.drop (pos' + 3)).take len))
          else
            npLoop pl data (pos' + 3) n acc

/-- The body of `NewProtocolMessageBody.parse` without the exception
handler: reads the entry count at `data[1]` (an `IndexError` when the body
is shorter than 2 bytes yields `Except.error []`, as `result` is still
empty) and runs the entry loop from `pos = 2`. -/
def npParseE (data : List Nat) (bt : Nat) :
    Except (List (Nat × List Nat)) (List (Nat × List Nat)) :=
  match data[1]? with
  | none => Except.error []
  | some cnt => npLoop (packLenOf bt) data 2 cnt []

/-- `NewProtocolMessageBody.parse`: the `try`/`except IndexError` handler
returns the partially filled `result` dict when an out-of-range read
occurs. -/
def NewProtocolMessageBody.parse (data : List Nat) (bt : Nat) :
    List (Nat × List Nat) :=
  match npParseE data bt with
  | Except.ok r => r
  | Except.error r => r

/-- The byte sequence obtained by packing every entry of a parameter list
with `NewProtocolMessageBody.pack`. -/
def encodeEntries (pl : Nat) (entries : List (Nat × List Nat)) : List Nat :=
  (entries.map (fun e => NewProtocolMessageBody.pack e.1 e.2 pl)).flatten

/-- Fields decoded by `EABody1` (cooker state, protocol generation 0). -/
structure EABody1 where
  mode : Nat
  progress : Nat
  cooking : Bool
  keep_warm : Bool
  top_temperature : Nat
  bottom_temperature : Nat
  time_remaining : Nat
  keep_warm_time : Nat
  deriving DecidableEq, Repr

/-- `EABody1.__init__`: `mode = body[6] + (body[7] << 8)`,
`progress = body[14]`, `cooking = (progress == 2)`,
`keep_warm = (progress == 3)`, `top_temperature = body[18]`,
`bottom_temperature = body[19]`,
`time_remaining = body[22]*60 + body[23]`,
`keep_warm_time = body[26]*60 + body[27]`.  Reads are sequential in
Python; any out-of-range index raises `IndexError`, and all raised errors
coincide, so a simultaneous match is observationally identical. -/
def EABody1.make (body : List Nat) : Except ParseError EABody1 :=
  match pyGet body 6, pyGet body 7, pyGet body 14, pyGet body 18,
      pyGet body 19, pyGet body 22, pyGet body 23, pyGet body 26,
      pyGet body 27 with
  | Except.ok b6, Except.ok b7, Except.ok b14, Except.ok b18, Except.ok b19,
    Except.ok b22, Except.ok b23, Except.ok b26, Except.ok b27 =>
    Except.ok
      { mode := b6 + (b7 <<< 8)
        progress := b14
        cooking := decide (b14 = 2)
        keep_warm := decide (b14 = 3)
        top_temperature := b18
        bottom_temperature := b19
        time_remaining := b22 * 60 + b23
        keep_warm_time := b26 * 60 + b27 }
  | _, _, _, _, _, _, _, _, _ => Except.error ParseError.indexError

/-- Fields decoded by `EABody2` (cooker state, alternate generation-0
layout). -/
structure EABody2 where
  progress : Nat
  cooking : Bool
  keep_warm : Bool
  mode : Nat
  time_remaining : Nat
  keep_warm_time : Nat
  top_temperature : Nat
  bottom_temperature : Nat
  deriving DecidableEq, Repr

/-- `EABody2.__init__`: `progress = body[9]`, `cooking = (progress == 2)`,
`keep_warm = (progress == 3)`, `mode = body[58] + (body[59] << 8)`,
`time_remaining = body[50]*60 + body[51]`,
`keep_warm_time = body[54]*60 + body[55]`, `top_temperature = body[21]`,
`bottom_temperature = body[20]`. -/
def EABody2.make (body : List Nat) : Except ParseError EABody2 :=
  match pyGet body 9, pyGet body 58, pyGet body 59, pyGet body 50,
      pyGet body 51, pyGet body 54, pyGet body 55, pyGet body 21,
      pyGet body 20 with
  | Except.ok b9, Except.ok b58, Except.ok b59, Except.ok b50, Except.ok b51,
    Except.ok b54, Except.ok b55, Except.ok b21, Except.ok b20 =>
    Except.ok
      { progress := b9
        cooking := decide (b9 = 2)
        keep_warm := decide (b9 = 3)
        mode := b58 + (b59 <<< 8)
        time_remaining := b50 * 60 + b51
        keep_warm_time := b54 * 60 + b55
        top_temperature := b21
        bottom_temperature := b20 }
  | _, _, _, _, _, _, _, _, _ => Except.error ParseError.indexError

/-- Fields decoded by `EABody3` (cooker state, protocol generation ≠ 0). -/
structure EABody3 where
  mode : Nat
  progress : Nat
  cooking : Bool
  keep_warm : Bool
  time_remaining : Nat
  top_temperature : Nat
  bottom_temperature : Nat
  keep_warm_time : Nat
  deriving DecidableEq, Repr

/-- `EABody3.__init__`: `mode = body[4] + (body[5] << 8)`,
`progress = body[8]`, `cooking = (progress == 2)`,
`keep_warm = (progress == 3)`, `time_remaining = body[12]*60 + body[13]`,
`top_temperature = body[20]`, `bottom_temperature = body[21]`,
`keep_warm_time = body[22]*60 + body[23]`. -/
def EABody3.make (body : List Nat) : Except ParseError EABody3 :=
  match pyGet body 4, pyGet body 5, pyGet body 8, pyGet body 12,
      pyGet body 13, pyGet body 20, pyGet body 21, pyGet body 22,
      pyGet body 23 with
  | Except.ok b4, Except.ok b5, Except.ok b8, Except.ok b12, Except.ok b13,
    Except.ok b20, Except.ok b21, Except.ok b22, Except.ok b23 =>
    Except.ok
      { mode := b4 + (b5 <<< 8)
        progress := b8
        cooking := decide (b8 = 2)
        keep_warm := decide (b8 = 3)
        time_remaining := b12 * 60 + b13
        top_temperature := b20
        bottom_temperature := b21
        keep_warm_time := b22 * 60 + b23 }
  | _, _, _, _, _, _, _, _, _ => Except.error ParseError.indexError

/-- The device-specific interpretation `MessageEAResponse` merges onto the
generic response via `set_attr`: either nothing (no discriminator matched,
the generic `MessageBody` has no attribute besides `data`), one of the
three body shapes (every attribute except `data` is copied onto the
response), or just a `mode` field (the `body[3] == 0x06` notify branch). -/
inductive EADecoded where
  | nothing
  | body1 (b : EABody1)
  | body2 (b : EABody2)
  | body3 (b : EABody3)
  | modeOnly (mode : Nat)
  deriving DecidableEq, Repr

/-- `MessageEAResponse.__init__`: the generic parse followed by the
discriminator cascade of the EA decoder, with Python's short-circuit
evaluation order of the probe reads (each probe `body[i]` raises
`IndexError` when out of range). -/
def MessageEAResponse.parse (message : Option (List Nat)) :
    Except ParseError (MessageResponse × EADecoded) :=
  match MessageResponse.parse message with
  | Except.error e => Except.error e
  | Except.ok r =>
    let body := r.body
    if r.deviceProtocolVersion = 0 then
      if r.messageType = 0x02 then
        match pyGet body 5 with
        | Except.error e => Except.error e
        | Except.ok b5 =>
          if b5 = 0x16 then
            match EABody1.make body with
            | Except.error e => Except.error e
            | Except.ok b => Except.ok (r, EADecoded.body1 b)
          else Except.ok (r, EADecoded.nothing)
      else if r.messageType = 0x03 then
        match pyGet body 6 with
        | Except.error e => Except.error e
        | Except.ok b6 =>
          if b6 = 0x52 then
            match pyGet body 7 with
            | Except.error e => Except.error e
            | Except.ok b7 =>
              if b7 = 0xC3 then
                match EABody2.make body with
                | Except.error e => Except.error e
                | Except.ok b => Except.ok (r, EADecoded.body2 b)
              else
                match pyGet body 5 with
                | Except.error e => Except.error e
                | Except.ok b5 =>
                  if b5 = 0x3D then
                    match EABody1.make body with
                    | Except.error e => Except.error e
                    | Except.ok b => Except.ok (r, EADecoded.body1 b)
                  else Except.ok (r, EADecoded.nothing)
          else
            match pyGet body 5 with
            | Except.error e => Except.error e
            | Except.ok b5 =>
              if b5 = 0x3D then
                match EABody1.make body with
                | Except.error e => Except.error e
                | Except.ok b => Except.ok (r, EADecoded.body1 b)
              else Except.ok (r, EADecoded.nothing)
      else if r.messageType = 0x04 then
        match pyGet body 5 with
        | Except.error e => Except.error e
        | Except.ok b5 =>
          if b5 = 0x3D then
            match EABody1.make body with
            | Except.error e => Except.error e
            | Except.ok b => Except.ok (r, EADecoded.body1 b)
          else Except.ok (r, EADecoded.nothing)
      else Except.ok (r, EADecoded.nothing)
    else
      if r.messageType = 0x02 then
        match pyGet body 3 with
        | Except.error e => Except.error e
        | Except.ok b3 =>
          if b3 = 0x02 then
            match EABody3.make body with
            | Except.error e => Except.error e
            | Except.ok b => Except.ok (r, EADecoded.body3 b)
          else Except.ok (r, EADecoded.nothing)
      else if r.messageType = 0x03 then
        match pyGet body 3 with
        | Except.error e => Except.error e
        | Except.ok b3 =>
          if b3 = 0x03 then
            match EABody3.make body with
            | Except.error e => Except.error e
            | Except.ok b => Except.ok (r, EADecoded.body3 b)
          else Except.ok (r, EADecoded.nothing)
      else if r.messageType = 0x04 then
        match pyGet body 3 with
        | Except.error e => Except.error e
        | Except.ok b3 =>
          if b3 = 0x04 then
            match EABody3.make body with
            | Except.error e => Except.error e
            | Except.ok b => Except.ok (r, EADecoded.body3 b)
          else if b3 = 0x06 then
            match pyGet body 4, pyGet body 5 with
            | Except.ok b4, Except.ok b5 =>
              Except.ok (r, EADecoded.modeOnly (b4 + (b5 <<< 8)))
            | _, _ => Except.error ParseError.indexError
          else Except.ok (r, EADecoded.nothing)
      else Except.ok (r, EADecoded.nothing)

end Midea
namespace Midea

lemma dropLast_append_singleton (l : List Nat) (c : Nat) :
    (l ++ [c]).dropLast = l := by
  simp

lemma getLast?_append_singleton (l : List Nat) (c : Nat) :
    (l ++ [c]).getLast? = some c := by
  simp

lemma serializeWith_eq (dpv dt mt : Nat) (body : List Nat) :
    serializeWith dpv dt mt body
      = requestHeader dpv dt mt body.length ++ body
          ++ [checksum ((requestHeader dpv dt mt body.length ++ body).drop 1)] := by
  simp [serializeWith]

lemma serializeWith_drop_one_dropLast (dpv dt mt : Nat) (body : List Nat) :
    ((serializeWith dpv dt mt body).drop 1).dropLast
      = (requestHeader dpv dt mt body.length ++ body).drop 1 := by
  show ((((requestHeader dpv dt mt body.length ++ body)
      ++ [checksum ((requestHeader dpv dt mt body.length ++ body).drop 1)]).drop 1)).dropLast = _
  simp only [requestHeader, List.cons_append, List.drop_succ_cons, List.drop_zero]
  exact dropLast_append_singleton ((10 + body.length) :: dt :: 0 :: 0 :: 0 :: 0 :: 0 :: dpv :: mt :: body) _

end Midea
namespace Midea

/-- C1: for every request whose `device_type`, `device_protocol_version`,
`message_type` and `body_type` each fit in one byte and whose body length
plus 10 is at most 255, `serialize` returns the 10-byte header, then the
body, then one trailing checksum byte, with `output[0] = 0xAA`,
`output[1] = 10 + len(body)`, and the trailing byte equal to
`checksum(output[1:-1])`. -/
theorem serialize_frame_layout (dpv dt mt : Nat) (bt : Option Nat)
    (pbody : List Nat)
    (_h1 : dt < 256) (_h2 : dpv < 256) (_h3 : mt < 256)
    (_h4 : ∀ b, bt = some b → b < 256)
    (_h5 : 10 + (requestBody bt pbody).length ≤ 255) :
    MessageRequest.serialize dpv dt mt bt pbody
      = requestHeader dpv dt mt (requestBody bt pbody).length
          ++ requestBody bt pbody
          ++ [checksum
              (((MessageRequest.serialize dpv dt mt bt pbody).drop 1).dropLast)]
    ∧ (MessageRequest.serialize dpv dt mt bt pbody).get? 0 = some 0xAA
    ∧ (MessageRequest.serialize dpv dt mt bt pbody).get? 1
        = some (10 + (requestBody bt pbody).length)
    ∧ (MessageRequest.serialize dpv dt mt bt pbody).getLast?
        = some (checksum
            (((MessageRequest.serialize dpv dt mt bt pbody).drop 1).dropLast)) := by
  have hkey := serializeWith_drop_one_dropLast dpv dt mt (requestBody bt pbody)
  refine ⟨?_, ?_, ?_, ?_⟩
  · rw [MessageRequest.serialize, hkey, serializeWith_eq]
  · rw [MessageRequest.serialize, serializeWith_eq]
    rfl
  · rw [MessageRequest.serialize, serializeWith_eq]
    rfl
  · rw [MessageRequest.serialize, hkey, serializeWith_eq]
    exact getLast?_append_singleton _ _

end Midea
namespace Midea

/-- C1 witness: the layout properties at a concrete request. -/
theorem serialize_frame_layout_witness :
    (MessageRequest.serialize 0 0xEA 0x03 (some 0x01) [2, 3]).get? 1 = some 13
    ∧ (MessageRequest.serialize 0 0xEA 0x03 (some 0x01) [2, 3]).getLast?
        = some (checksum
            (((MessageRequest.serialize 0 0xEA 0x03 (some 0x01) [2, 3]).drop
                1).dropLast)) := by
  have h := serialize_frame_layout 0 0xEA 0x03 (some 0x01) [2, 3]
    (by decide) (by decide) (by decide)
    (fun b hb => by injection hb with h; omega) (by decide)
  exact ⟨h.2.2.1, h.2.2.2⟩

/-- C9: custom/raw request serialization — `MessageQuestCustom.serialize`
emits exactly the 10-byte header followed by `cmd_body` verbatim followed
by one checksum byte over `header[1:] ++ cmd_body`; no `body_type` byte is
prepended, and the header length field is `10 + len(cmd_body)`. -/
theorem quest_custom_serialize (dt cmdType : Nat) (cmdBody : List Nat)
    (_h1 : dt < 256) (_h2 : cmdType < 256)
    (_h5 : 10 + cmdBody.length ≤ 255) :
    MessageQuestCustom.serialize dt cmdType cmdBody
      = requestHeader 0 dt cmdType cmdBody.length ++ cmdBody
          ++ [checksum
              ((requestHeader 0 dt cmdType cmdBody.length).drop 1 ++ cmdBody)]
    ∧ (MessageQuestCustom.serialize dt cmdType cmdBody).get? 1
        = some (10 + cmdBody.length)
    ∧ (MessageQuestCustom.serialize dt cmdType cmdBody).getLast?
        = some (checksum
            ((requestHeader 0 dt cmdType cmdBody.length).drop 1 ++ cmdBody)) := by
  refine ⟨?_, ?_, ?_⟩
  · rw [MessageQuestCustom.serialize, serializeWith_eq]
    rfl
  · rw [MessageQuestCustom.serialize, serializeWith_eq]
    rfl
  · rw [MessageQuestCustom.serialize, serializeWith_eq]
    exact getLast?_append_singleton _ _

/-- C9 witness: the custom serialization at a concrete request. -/
theorem quest_custom_serialize_witness :
    MessageQuestCustom.serialize 0xEA 0x03 [9, 9]
      = requestHeader 0 0xEA 0x03 2 ++ [9, 9]
          ++ [checksum ((requestHeader 0 0xEA 0x03 2).drop 1 ++ [9, 9])] :=
  (quest_custom_serialize 0xEA 0x03 [9, 9] (by decide) (by decide)
    (by decide)).1

end Midea
namespace Midea

/-- C3 counterexample: an input of length exactly 11 (empty body) does not
parse successfully — reading `body_type` from the empty body raises
`IndexError` — refuting the claim that parsing fails only for inputs
missing or shorter than 11 bytes and that length 11 yields
`raw_body = []`. -/
theorem parse_len11_raises_index_error :
    MessageResponse.parse (some (List.replicate 11 0))
      = Except.error ParseError.indexError := by
  rfl

/-- C3 amended: parsing fails iff the input is missing or shorter than 12
bytes — `MessageLenError` when missing or shorter than 11 bytes,
`IndexError` at exactly 11 bytes (the `body_type` read of the empty
body) — and succeeds for every input of length at least 12; in
particular the trailing checksum byte is never verified, so a wrong
checksum byte still parses. -/
theorem parse_failure_characterization (m : Option (List Nat)) :
    (MessageResponse.parse m = Except.error ParseError.messageLenError
      ↔ m = none ∨ ∃ l, m = some l ∧ l.length < 11)
    ∧ (MessageResponse.parse m = Except.error ParseError.indexError
      ↔ ∃ l, m = some l ∧ l.length = 11)
    ∧ (∀ l, m = some l → 12 ≤ l.length →
        ∃ r, MessageResponse.parse m = Except.ok r) := by
  cases m with
  | none =>
    refine ⟨?_, ?_, ?_⟩
    · simp [MessageResponse.parse]
    · simp [MessageResponse.parse]
    · intro l hl
      exact absurd hl (by simp)
  | some l =>
    have hblen : ((l.drop 10).dropLast).length = l.length - 11 := by
      simp [List.length_dropLast, List.length_drop]
      omega
    by_cases hlen : l.length < 11
    · refine ⟨?_, ?_, ?_⟩
      · simp [MessageResponse.parse, hlen]
      · simp [MessageResponse.parse, hlen]
        omega
      · intro l' hl' h12
        cases hl'
        omega
    · cases hb : ((l.drop 10).dropLast).head? with
      | none =>
        have hnil : (l.drop 10).dropLast = [] := by
          cases h : (l.drop 10).dropLast with
          | nil => rfl
          | cons a t => rw [h] at hb; simp at hb
        have h11 : l.length = 11 := by
          rw [hnil] at hblen
          simp at hblen
          omega
        refine ⟨?_, ?_, ?_⟩
        · simp [MessageResponse.parse, hlen, hb]
        · simp [MessageResponse.parse, hlen, hb, h11]
        · intro l' hl' h12
          cases hl'
          omega
      | some bt =>
        have hne : ((l.drop 10).dropLast).length ≠ 0 := by
          intro h0
          rw [List.length_eq_zero.mp h0] at hb
          simp at hb
        refine ⟨?_, ?_, ?_⟩
        · simp [MessageResponse.parse, hlen, hb]
        · simp [MessageResponse.parse, hlen, hb]
          omega
        · intro l' hl' h12
          cases hl'
          refine ⟨{ header := l.take 10, deviceProtocolVersion := (l.take 10).getD 8 0,
                    messageType := (l.take 10).getD 9 0,
                    deviceType := (l.take 10).getD 2 0,
                    body := (l.drop 10).dropLast, bodyType := bt }, ?_⟩
          simp [MessageResponse.parse, hlen, hb]


/-- C3 witness: a concrete 11-byte frame is rejected with `IndexError`. -/
theorem parse_failure_characterization_witness :
    MessageResponse.parse (some [1, 2, 3, 4, 5, 6, 7, 8, 9, 10, 11])
      = Except.error ParseError.indexError :=
  ((parse_failure_characterization
      (some [1, 2, 3, 4, 5, 6, 7, 8, 9, 10, 11])).2.1).mpr
    ⟨[1, 2, 3, 4, 5, 6, 7, 8, 9, 10, 11], rfl, by decide⟩

end Midea
namespace Midea

/-- C2: round-trip — parsing the serialization of a request with one-byte
`body_type` `B` and payload `P` (with `11 + len(P)` at most 255) succeeds
and yields `body_type = B`, raw body `B :: P` (so `raw_body[1:] = P`),
and the request's `device_type`, `device_protocol_version` and
`message_type`. -/
theorem serialize_parse_roundtrip (dpv dt mt B : Nat) (P : List Nat)
    (_h1 : dpv < 256) (_h2 : dt < 256) (_h3 : mt < 256) (_hB : B < 256)
    (_h5 : 11 + P.length ≤ 255) :
    MessageResponse.parse
        (some (MessageRequest.serialize dpv dt mt (some B) P))
      = Except.ok
          { header := requestHeader dpv dt mt (P.length + 1)
            deviceProtocolVersion := dpv
            messageType := mt
            deviceType := dt
            body := B :: P
            bodyType := B } := by
  have hout : MessageRequest.serialize dpv dt mt (some B) P
      = (requestHeader dpv dt mt (P.length + 1) ++ (B :: P))
          ++ [checksum
              ((requestHeader dpv dt mt (P.length + 1) ++ (B :: P)).drop 1)] := by
    rw [MessageRequest.serialize, serializeWith_eq]
    rfl
  rw [hout]
  have hlen : ¬ (((requestHeader dpv dt mt (P.length + 1) ++ (B :: P))
      ++ [checksum ((requestHeader dpv dt mt (P.length + 1)
        ++ (B :: P)).drop 1)]).length < 11) := by
    simp [requestHeader]
  have hdl : ((((requestHeader dpv dt mt (P.length + 1) ++ (B :: P))
      ++ [checksum ((requestHeader dpv dt mt (P.length + 1)
        ++ (B :: P)).drop 1)]).drop 10)).dropLast = B :: P :=
    dropLast_append_singleton (B :: P) _
  simp only [MessageResponse.parse]
  rw [if_neg hlen, hdl]
  rfl

/-- C2 witness: the round-trip at a concrete request. -/
theorem serialize_parse_roundtrip_witness :
    MessageResponse.parse
        (some (MessageRequest.serialize 0 0xEA 0x03 (some 0x01) [2, 3]))
      = Except.ok
          { header := requestHeader 0 0xEA 0x03 3
            deviceProtocolVersion := 0
            messageType := 0x03
            deviceType := 0xEA
            body := [1, 2, 3]
            bodyType := 1 } :=
  serialize_parse_roundtrip 0 0xEA 0x03 0x01 [2, 3]
    (by decide) (by decide) (by decide) (by decide) (by decide)

end Midea
namespace Midea

/-- C7 counterexample: a `querySubtype` frame whose body is `[0, 0, 7]`
(3 bytes, shorter than 4) parses with `sub_type = 7`, refuting the
claim that every body shorter than 4 bytes yields `sub_type = 0`. -/
theorem subtype_len3_body_nonzero :
    MessageSubtypeResponse.parse
        (some [0xAA, 14, 0, 0, 0, 0, 0, 0, 0, 0xA0, 0, 0, 7, 0])
      = Except.ok
          { resp := { header := [0xAA, 14, 0, 0, 0, 0, 0, 0, 0, 0xA0]
                      deviceProtocolVersion := 0
                      messageType := 0xA0
                      deviceType := 0
                      body := [0, 0, 7]
                      bodyType := 0 }
            subType := some 7 } := by
  rfl

lemma MessageSubtypeResponse.parse_of_ok (m : List Nat) (r0 : MessageResponse)
    (hp : MessageResponse.parse (some m) = Except.ok r0) :
    MessageSubtypeResponse.parse (some m)
      = if r0.messageType = 0xA0 then
          Except.ok { resp := r0
                      subType := some (r0.body.getD 2 0 + r0.body.getD 3 0 * 2 ^ 8) }
        else Except.ok { resp := r0, subType := none } := by
  rw [MessageSubtypeResponse.parse, hp]

/-- C7 amended: for every frame parsed by `MessageSubtypeResponse` with
`message_type = querySubtype (0xA0)`, `sub_type` equals the 2-byte
little-endian value at body offsets 2 and 3 with each missing byte
defaulting to 0; every body shorter than 3 bytes yields `sub_type = 0`,
and a body with `body[2] = 7` and `body[3] = 0` yields `sub_type = 7`. -/
theorem subtype_extraction (m : List Nat) (r : SubtypeResponse)
    (h : MessageSubtypeResponse.parse (some m) = Except.ok r)
    (hmt : r.resp.messageType = 0xA0) :
    r.subType = some (r.resp.body.getD 2 0 + r.resp.body.getD 3 0 * 2 ^ 8)
    ∧ (r.resp.body.length < 3 → r.subType = some 0)
    ∧ (r.resp.body.getD 2 0 = 7 → r.resp.body.getD 3 0 = 0 →
        r.subType = some 7) := by
  cases hp : MessageResponse.parse (some m) with
  | error e =>
    rw [MessageSubtypeResponse.parse, hp] at h
    exact absurd h (by simp)
  | ok r0 =>
    rw [MessageSubtypeResponse.parse_of_ok m r0 hp] at h
    by_cases hmt0 : r0.messageType = 0xA0
    · rw [if_pos hmt0] at h
      injection h with h
      subst h
      refine ⟨rfl, ?_, ?_⟩
      · intro hshort
        dsimp only at hshort ⊢
        have h2 : r0.body.getD 2 0 = 0 :=
          List.getD_eq_default _ _ (by omega)
        have h3 : r0.body.getD 3 0 = 0 :=
          List.getD_eq_default _ _ (by omega)
        rw [h2, h3]
        norm_num
      · intro h2 h3
        dsimp only at h2 h3 ⊢
        rw [h2, h3]
        norm_num
    · rw [if_neg hmt0] at h
      injection h with h
      subst h
      exact absurd hmt hmt0

/-- C7 witness: the subtype extraction at a concrete frame. -/
theorem subtype_extraction_witness :
    (({ resp := { header := [0xAA, 15, 0, 0, 0, 0, 0, 0, 0, 0xA0]
                  deviceProtocolVersion := 0
                  messageType := 0xA0
                  deviceType := 0
                  body := [0, 0, 7, 0]
                  bodyType := 0 }
        subType := some 7 } : SubtypeResponse)).subType = some 7 := by
  have h := subtype_extraction
    [0xAA, 15, 0, 0, 0, 0, 0, 0, 0, 0xA0, 0, 0, 7, 0, 0]
    { resp := { header := [0xAA, 15, 0, 0, 0, 0, 0, 0, 0, 0xA0]
                deviceProtocolVersion := 0
                messageType := 0xA0
                deviceType := 0
                body := [0, 0, 7, 0]
                bodyType := 0 }
      subType := some 7 }
    rfl rfl
  exact h.2.2 rfl rfl

end Midea
namespace Midea

lemma getElem?_append_offset (pre l : List Nat) (i : Nat) :
    (pre ++ l)[pre.length + i]? = l[i]? := by
  induction pre with
  | nil => simp
  | cons a t ih =>
    simp only [List.cons_append, List.length_cons, Nat.succ_add,
      List.getElem?_cons_succ]
    exact ih

lemma drop_append_offset (pre l : List Nat) (i : Nat) :
    (pre ++ l).drop (pre.length + i) = l.drop i := by
  induction pre with
  | nil => simp
  | cons a t ih =>
    simp only [List.cons_append, List.length_cons, Nat.succ_add,
      List.drop_succ_cons]
    exact ih

lemma and_shift_roundtrip (k : Nat) :
    (k &&& 0xFF) + ((k >>> 8) <<< 8) = k := by
  have h := Nat.and_pow_two_sub_one_eq_mod k 8
  norm_num at h
  rw [Nat.shiftLeft_eq, Nat.shiftRight_eq_div_pow]
  omega

lemma dictInsert_append (acc : List (Nat × List Nat)) (k : Nat) (v : List Nat)
    (h : k ∉ acc.map Prod.fst) :
    dictInsert acc k v = acc ++ [(k, v)] := by
  induction acc with
  | nil => rfl
  | cons a t ih =>
    simp only [List.map_cons, List.mem_cons, not_or] at h
    rw [dictInsert, if_neg (fun he => h.1 he.symm), ih h.2]
    rfl

end Midea
namespace Midea

lemma npLoop_encode (pl : Nat) (hpl : pl = 4 ∨ pl = 5) :
    ∀ (entries : List (Nat × List Nat)) (pre : List Nat) (n : Nat)
      (acc : List (Nat × List Nat)),
      (entries.map Prod.fst).Nodup →
      (∀ e ∈ entries, e.2 ≠ []) →
      (∀ e ∈ entries, e.1 ∉ acc.map Prod.fst) →
      entries.length ≤ n →
      ((n = entries.length →
          npLoop pl (pre ++ encodeEntries pl entries) pre.length n acc
            = Except.ok (acc ++ entries))
        ∧ (entries.length < n →
          npLoop pl (pre ++ encodeEntries pl entries) pre.length n acc
            = Except.error (acc ++ entries))) := by
  intro entries
  induction entries with
  | nil =>
    intro pre n acc _ _ _ _
    constructor
    · intro hn
      subst hn
      simp [npLoop, encodeEntries]
    · intro hn
      cases n with
      | zero => omega
      | succ m =>
        have hnone : (pre ++ encodeEntries pl [])[pre.length]? = none := by
          apply List.getElem?_eq_none
          simp [encodeEntries]
        simp [npLoop, hnone]
  | cons e t ih =>
    obtain ⟨k, v⟩ := e
    intro pre n acc hnd hne hdisj hlen
    obtain ⟨m, rfl⟩ : ∃ m, n = m + 1 :=
      ⟨n - 1, by simp at hlen; omega⟩
    have hdata : pre ++ encodeEntries pl ((k, v) :: t)
        = pre ++ (NewProtocolMessageBody.pack k v pl ++ encodeEntries pl t) := by
      simp [encodeEntries]
    have hvne : v ≠ [] := hne (k, v) (List.mem_cons_self _ _)
    have hvpos : 0 < v.length := List.length_pos.mpr hvne
    have hknotacc : k ∉ acc.map Prod.fst :=
      hdisj (k, v) (List.mem_cons_self _ _)
    have hmap : (((k, v) :: t).map Prod.fst) = k :: t.map Prod.fst := rfl
    rw [hmap, List.nodup_cons] at hnd
    have hnd' : (t.map Prod.fst).Nodup := hnd.2
    have hkt : k ∉ t.map Prod.fst := hnd.1
    have hne' : ∀ e ∈ t, e.2 ≠ [] := fun e he => hne e (List.mem_cons_of_mem _ he)
    have hdisj' : ∀ e ∈ t, e.1 ∉ (acc ++ [(k, v)]).map Prod.fst := by
      intro e he
      simp only [List.map_append, List.mem_append]
      rintro (hin | hin)
      · exact hdisj e (List.mem_cons_of_mem _ he) hin
      · simp at hin
        apply hkt
        rw [← hin]
        exact List.mem_map_of_mem Prod.fst he
    have hlen' : t.length ≤ m := by simp at hlen; omega
    have ihres := ih (pre ++ NewProtocolMessageBody.pack k v pl) m
      (acc ++ [(k, v)]) hnd' hne' hdisj' hlen'
    rcases hpl with rfl | rfl
    · -- pack_len = 4
      have hpack : NewProtocolMessageBody.pack k v 4
          = (k &&& 0xFF) :: (k >>> 8) :: v.length :: v := by
        simp [NewProtocolMessageBody.pack]
      have hget0 : (pre ++ encodeEntries 4 ((k, v) :: t))[pre.length]?
          = some (k &&& 0xFF) := by
        rw [hdata, hpack]
        exact getElem?_append_offset pre _ 0
      have hget1 : (pre ++ encodeEntries 4 ((k, v) :: t))[pre.length + 1]?
          = some (k >>> 8) := by
        rw [hdata, hpack]
        exact getElem?_append_offset pre _ 1
      have hget2 : (pre ++ encodeEntries 4 ((k, v) :: t))[pre.length + 2]?
          = some v.length := by
        rw [hdata, hpack, getElem?_append_offset]
        simp
      have hval : ((pre ++ encodeEntries 4 ((k, v) :: t)).drop
          (pre.length + 3)).take v.length = v := by
        rw [hdata, hpack]
        have hd : ((pre ++ ((k &&& 0xFF) :: (k >>> 8) :: v.length :: v
            ++ encodeEntries 4 t)).drop (pre.length + 3))
            = v ++ encodeEntries 4 t :=
          drop_append_offset pre _ 3
        rw [hd]
        exact List.take_left v _
      have hstep : npLoop 4 (pre ++ encodeEntries 4 ((k, v) :: t))
          pre.length (m + 1) acc
          = npLoop 4 (pre ++ encodeEntries 4 ((k, v) :: t))
            (pre.length + 3 + v.length) m (acc ++ [(k, v)]) := by
        rw [npLoop, hget0, hget1]
        rw [if_neg (by omega : ¬ (4 : Nat) = 5)]
        simp only [hget2]
        rw [if_pos hvpos, hval, and_shift_roundtrip,
          dictInsert_append acc k v hknotacc]
      have hposlen : pre.length + 3 + v.length
          = (pre ++ NewProtocolMessageBody.pack k v 4).length := by
        simp [hpack]
        omega
      have hdat2 : pre ++ encodeEntries 4 ((k, v) :: t)
          = (pre ++ NewProtocolMessageBody.pack k v 4) ++ encodeEntries 4 t := by
        rw [hdata, List.append_assoc]
      constructor
      · intro hn
        rw [hstep, hposlen, hdat2, ihres.1 (by simp at hn; omega)]
        simp
      · intro hn
        rw [hstep, hposlen, hdat2, ihres.2 (by simp at hn; omega)]
        simp
    · -- pack_len = 5
      have hpack : NewProtocolMessageBody.pack k v 5
          = (k &&& 0xFF) :: (k >>> 8) :: 0x00 :: v.length :: v := by
        simp [NewProtocolMessageBody.pack]
      have hget0 : (pre ++ encodeEntries 5 ((k, v) :: t))[pre.length]?
          = some (k &&& 0xFF) := by
        rw [hdata, hpack]
        exact getElem?_append_offset pre _ 0
      have hget1 : (pre ++ encodeEntries 5 ((k, v) :: t))[pre.length + 1]?
          = some (k >>> 8) := by
        rw [hdata, hpack]
        exact getElem?_append_offset pre _ 1
      have hget3 : (pre ++ encodeEntries 5 ((k, v) :: t))[pre.length + 1 + 2]?
          = some v.length := by
        rw [hdata, hpack]
        show (pre ++ ((k &&& 0xFF) :: (k >>> 8) :: 0x00 :: v.length :: v
            ++ encodeEntries 5 t))[pre.length + 3]? = some v.length
        rw [getElem?_append_offset]
        simp
      have hval : ((pre ++ encodeEntries 5 ((k, v) :: t)).drop
          (pre.length + 1 + 3)).take v.length = v := by
        rw [hdata, hpack]
        have hd : ((pre ++ ((k &&& 0xFF) :: (k >>> 8) :: 0x00 :: v.length :: v
            ++ encodeEntries 5 t)).drop (pre.length + 1 + 3))
            = v ++ encodeEntries 5 t :=
          drop_append_offset pre _ 4
        rw [hd]
        exact List.take_left v _
      have hstep : npLoop 5 (pre ++ encodeEntries 5 ((k, v) :: t))
          pre.length (m + 1) acc
          = npLoop 5 (pre ++ encodeEntries 5 ((k, v) :: t))
            (pre.length + 1 + 3 + v.length) m (acc ++ [(k, v)]) := by
        rw [npLoop, hget0, hget1]
        rw [if_pos (rfl : (5 : Nat) = 5)]
        simp only [hget3]
        rw [if_pos hvpos, hval, and_shift_roundtrip,
          dictInsert_append acc k v hknotacc]
      have hposlen : pre.length + 1 + 3 + v.length
          = (pre ++ NewProtocolMessageBody.pack k v 5).length := by
        simp [hpack]
        omega
      have hdat2 : pre ++ encodeEntries 5 ((k, v) :: t)
          = (pre ++ NewProtocolMessageBody.pack k v 5) ++ encodeEntries 5 t := by
        rw [hdata, List.append_assoc]
      constructor
      · intro hn
        rw [hstep, hposlen, hdat2, ihres.1 (by simp at hn; omega)]
        simp
      · intro hn
        rw [hstep, hposlen, hdat2, ihres.2 (by simp at hn; omega)]
        simp

end Midea
namespace Midea

lemma packLenOf_cases (bt : Nat) : packLenOf bt = 4 ∨ packLenOf bt = 5 := by
  unfold packLenOf
  by_cases h : bt = 0xB5
  · left
    rw [if_pos h]
  · right
    rw [if_neg h]

/-- C5: new-protocol round-trip — for every marker byte and every list of
entries with distinct parameter ids below 2^16, non-empty values of at
most 255 bytes, and at most 255 entries, parsing the body
`[marker, count] ++ pack(entries)` (pack length 4 when the marker is
`0xB5`, else 5) yields exactly the original entry list. -/
theorem new_protocol_roundtrip (bt : Nat) (entries : List (Nat × List Nat))
    (hnd : (entries.map Prod.fst).Nodup)
    (hwf : ∀ e ∈ entries, e.1 < 2 ^ 16 ∧ e.2 ≠ [] ∧ e.2.length ≤ 255)
    (_hcnt : entries.length ≤ 255) :
    NewProtocolMessageBody.parse
        (bt :: entries.length :: encodeEntries (packLenOf bt) entries) bt
      = entries := by
  have hne : ∀ e ∈ entries, e.2 ≠ [] := fun e he => (hwf e he).2.1
  have hres := (npLoop_encode (packLenOf bt) (packLenOf_cases bt) entries
      [bt, entries.length] entries.length [] hnd hne (by simp)
      (le_refl _)).1 rfl
  have hres' : npLoop (packLenOf bt)
      (bt :: entries.length :: encodeEntries (packLenOf bt) entries)
      2 entries.length [] = Except.ok entries := by
    simpa using hres
  have h1 : (bt :: entries.length
      :: encodeEntries (packLenOf bt) entries)[1]? = some entries.length := by
    simp
  rw [NewProtocolMessageBody.parse, npParseE]
  simp only [h1, hres']

/-- C5 witness: the round-trip at a concrete two-entry body. -/
theorem new_protocol_roundtrip_witness :
    NewProtocolMessageBody.parse
        (0xB5 :: 2
          :: encodeEntries (packLenOf 0xB5) [(0x0102, [7]), (3, [8, 9])]) 0xB5
      = [(0x0102, [7]), (3, [8, 9])] :=
  new_protocol_roundtrip 0xB5 [(0x0102, [7]), (3, [8, 9])]
    (by decide) (by decide) (by decide)

/-- C6: the new-protocol decoder never propagates an exception — when the
declared entry count exceeds the entries actually present, it stops at
the first out-of-range read and returns exactly the entries decoded
before that point; in general `parse` returns the loop result, recovering
the partial dictionary carried by the index error, and a body shorter
than 2 bytes yields the empty dictionary. -/
theorem new_protocol_truncated_stops_early (bt cnt : Nat)
    (entries : List (Nat × List Nat))
    (hnd : (entries.map Prod.fst).Nodup)
    (hwf : ∀ e ∈ entries, e.1 < 2 ^ 16 ∧ e.2 ≠ [] ∧ e.2.length ≤ 255)
    (hcnt : entries.length < cnt) (_hcnt255 : cnt ≤ 255) :
    NewProtocolMessageBody.parse
        (bt :: cnt :: encodeEntries (packLenOf bt) entries) bt = entries
    ∧ (∀ data b, npParseE data b
          = Except.ok (NewProtocolMessageBody.parse data b)
        ∨ npParseE data b
          = Except.error (NewProtocolMessageBody.parse data b))
    ∧ NewProtocolMessageBody.parse [bt] bt = [] := by
  refine ⟨?_, ?_, ?_⟩
  · have hne : ∀ e ∈ entries, e.2 ≠ [] := fun e he => (hwf e he).2.1
    have hres := (npLoop_encode (packLenOf bt) (packLenOf_cases bt) entries
        [bt, cnt] cnt [] hnd hne (by simp) (by omega)).2 hcnt
    have hres' : npLoop (packLenOf bt)
        (bt :: cnt :: encodeEntries (packLenOf bt) entries)
        2 cnt [] = Except.error entries := by
      simpa using hres
    have h1 : (bt :: cnt
        :: encodeEntries (packLenOf bt) entries)[1]? = some cnt := by
      simp
    rw [NewProtocolMessageBody.parse, npParseE]
    simp only [h1, hres']
  · intro data b
    cases h : npParseE data b with
    | ok r =>
      left
      rw [NewProtocolMessageBody.parse, h]
    | error r =>
      right
      rw [NewProtocolMessageBody.parse, h]
  · rfl

/-- C6 witness: a concrete body declaring 2 entries but holding 1. -/
theorem new_protocol_truncated_stops_early_witness :
    NewProtocolMessageBody.parse
        (0xB5 :: 2 :: encodeEntries (packLenOf 0xB5) [(1, [0xAA])]) 0xB5
      = [(1, [0xAA])] :=
  (new_protocol_truncated_stops_early 0xB5 2 [(1, [0xAA])]
    (by decide) (by decide) (by decide) (by decide)).1

end Midea
namespace Midea

lemma pyGet_ok (l : List Nat) (i : Nat) (h : i < l.length) :
    pyGet l i = Except.ok (l.getD i 0) := by
  rw [pyGet]
  have he : l[i]? = some (l.getD i 0) := by
    rw [List.getElem?_eq_getElem h, List.getD_eq_getElem l 0 h]
  simp only [he]

lemma pyGet_err (l : List Nat) (i : Nat) (h : l.length ≤ i) :
    pyGet l i = Except.error ParseError.indexError := by
  rw [pyGet]
  have he : l[i]? = none := List.getElem?_eq_none h
  simp only [he]

lemma eaBody1_make_of_length (body : List Nat) (h : 28 ≤ body.length) :
    EABody1.make body = Except.ok
      { mode := body.getD 6 0 + (body.getD 7 0 <<< 8)
        progress := body.getD 14 0
        cooking := decide (body.getD 14 0 = 2)
        keep_warm := decide (body.getD 14 0 = 3)
        top_temperature := body.getD 18 0
        bottom_temperature := body.getD 19 0
        time_remaining := body.getD 22 0 * 60 + body.getD 23 0
        keep_warm_time := body.getD 26 0 * 60 + body.getD 27 0 } := by
  rw [EABody1.make]
  simp only [pyGet_ok body 6 (by omega), pyGet_ok body 7 (by omega),
    pyGet_ok body 14 (by omega), pyGet_ok body 18 (by omega),
    pyGet_ok body 19 (by omega), pyGet_ok body 22 (by omega),
    pyGet_ok body 23 (by omega), pyGet_ok body 26 (by omega),
    pyGet_ok body 27 (by omega)]

lemma eaBody3_make_of_length (body : List Nat) (h : 24 ≤ body.length) :
    EABody3.make body = Except.ok
      { mode := body.getD 4 0 + (body.getD 5 0 <<< 8)
        progress := body.getD 8 0
        cooking := decide (body.getD 8 0 = 2)
        keep_warm := decide (body.getD 8 0 = 3)
        time_remaining := body.getD 12 0 * 60 + body.getD 13 0
        top_temperature := body.getD 20 0
        bottom_temperature := body.getD 21 0
        keep_warm_time := body.getD 22 0 * 60 + body.getD 23 0 } := by
  rw [EABody3.make]
  simp only [pyGet_ok body 4 (by omega), pyGet_ok body 5 (by omega),
    pyGet_ok body 8 (by omega), pyGet_ok body 12 (by omega),
    pyGet_ok body 13 (by omega), pyGet_ok body 20 (by omega),
    pyGet_ok body 21 (by omega), pyGet_ok body 22 (by omega),
    pyGet_ok body 23 (by omega)]

end Midea
namespace Midea

/-- C4: EA variant selection — a parsed frame with
`device_protocol_version = 0`, `message_type = set (0x02)` and
`body[5] = 0x16` (with the body long enough to hold the decoded offsets)
decodes as `EABody1`: `mode = body[6] + (body[7] << 8)`,
`progress = body[14]`, `cooking` iff `progress = 2`, `keep_warm` iff
`progress = 3`, temperatures at offsets 18/19, `time_remaining` from
22/23, `keep_warm_time` from 26/27; a frame with
`device_protocol_version = 1`, `message_type = query (0x03)` and
`body[3] = 0x03` decodes as `EABody3` at its documented offsets. -/
theorem ea_variant_selection (m : List Nat) (r : MessageResponse)
    (h : MessageResponse.parse (some m) = Except.ok r) :
    (r.deviceProtocolVersion = 0 → r.messageType = 0x02 →
      r.body.getD 5 0 = 0x16 → 28 ≤ r.body.length →
      MessageEAResponse.parse (some m)
        = Except.ok (r, EADecoded.body1
            { mode := r.body.getD 6 0 + (r.body.getD 7 0 <<< 8)
              progress := r.body.getD 14 0
              cooking := decide (r.body.getD 14 0 = 2)
              keep_warm := decide (r.body.getD 14 0 = 3)
              top_temperature := r.body.getD 18 0
              bottom_temperature := r.body.getD 19 0
              time_remaining := r.body.getD 22 0 * 60 + r.body.getD 23 0
              keep_warm_time := r.body.getD 26 0 * 60 + r.body.getD 27 0 }))
    ∧ (r.deviceProtocolVersion = 1 → r.messageType = 0x03 →
      r.body.getD 3 0 = 0x03 → 24 ≤ r.body.length →
      MessageEAResponse.parse (some m)
        = Except.ok (r, EADecoded.body3
            { mode := r.body.getD 4 0 + (r.body.getD 5 0 <<< 8)
              progress := r.body.getD 8 0
              cooking := decide (r.body.getD 8 0 = 2)
              keep_warm := decide (r.body.getD 8 0 = 3)
              time_remaining := r.body.getD 12 0 * 60 + r.body.getD 13 0
              top_temperature := r.body.getD 20 0
              bottom_temperature := r.body.getD 21 0
              keep_warm_time := r.body.getD 22 0 * 60 + r.body.getD 23 0 })) := by
  constructor
  · intro hdpv hmt hb5 hlen
    rw [MessageEAResponse.parse, h]
    dsimp only
    rw [if_pos hdpv, if_pos hmt]
    simp only [pyGet_ok r.body 5 (by omega)]
    rw [if_pos hb5]
    simp only [eaBody1_make_of_length r.body hlen]
  · intro hdpv hmt hb3 hlen
    rw [MessageEAResponse.parse, h]
    dsimp only
    rw [if_neg (by omega : ¬ r.deviceProtocolVersion = 0),
      if_neg (by omega : ¬ r.messageType = 0x02), if_pos hmt]
    simp only [pyGet_ok r.body 3 (by omega)]
    rw [if_pos hb3]
    simp only [eaBody3_make_of_length r.body hlen]

end Midea
namespace Midea

/-- C4 witness: the EABody1 decoding of a concrete set-type frame. -/
theorem ea_variant_selection_witness :
    MessageEAResponse.parse
        (some ([0xAA, 38, 0xEA, 0, 0, 0, 0, 0, 0, 0x02]
          ++ [0, 0, 0, 0, 0, 0x16, 1, 0, 0, 0, 0, 0, 0, 0, 2, 0, 0, 0,
              50, 60, 0, 0, 1, 30, 0, 0, 0, 45] ++ [0]))
      = Except.ok
          ({ header := [0xAA, 38, 0xEA, 0, 0, 0, 0, 0, 0, 0x02]
             deviceProtocolVersion := 0
             messageType := 0x02
             deviceType := 0xEA
             body := [0, 0, 0, 0, 0, 0x16, 1, 0, 0, 0, 0, 0, 0, 0, 2, 0,
                      0, 0, 50, 60, 0, 0, 1, 30, 0, 0, 0, 45]
             bodyType := 0 },
           EADecoded.body1
             { mode := 1
               progress := 2
               cooking := true
               keep_warm := false
               top_temperature := 50
               bottom_temperature := 60
               time_remaining := 90
               keep_warm_time := 45 }) := by
  have hx := (ea_variant_selection
    ([0xAA, 38, 0xEA, 0, 0, 0, 0, 0, 0, 0x02]
      ++ [0, 0, 0, 0, 0, 0x16, 1, 0, 0, 0, 0, 0, 0, 0, 2, 0, 0, 0,
          50, 60, 0, 0, 1, 30, 0, 0, 0, 45] ++ [0])
    { header := [0xAA, 38, 0xEA, 0, 0, 0, 0, 0, 0, 0x02]
      deviceProtocolVersion := 0
      messageType := 0x02
      deviceType := 0xEA
      body := [0, 0, 0, 0, 0, 0x16, 1, 0, 0, 0, 0, 0, 0, 0, 2, 0,
               0, 0, 50, 60, 0, 0, 1, 30, 0, 0, 0, 45]
      bodyType := 0 }
    (by rfl)).1 rfl rfl (by rfl) (by decide)
  exact hx

end Midea
namespace Midea

/-- C8 counterexample: a generation-0 set-type frame whose 1-byte body is
too short for the `body[5]` discriminator probe makes
`MessageEAResponse` construction raise `IndexError`, refuting the claim
that construction succeeds without error even when the body is too short
to contain the probed offsets. -/
theorem ea_short_body_probe_raises :
    MessageEAResponse.parse
        (some [0xAA, 11, 0xEA, 0, 0, 0, 0, 0, 0, 0x02, 0x00, 0xFF])
      = Except.error ParseError.indexError := by
  rfl

/-- C8 amended: for every successfully parsed frame on which no EA
discriminator matches and whose body is long enough for the offsets the
discriminator cascade actually probes (or whose message type probes
none), `MessageEAResponse` construction succeeds and exposes no decoded
device fields beyond the generic response. -/
theorem ea_no_match_no_fields (m : List Nat) (r : MessageResponse)
    (h : MessageResponse.parse (some m) = Except.ok r) :
    (r.deviceProtocolVersion = 0 → r.messageType = 0x02 →
      6 ≤ r.body.length → r.body.getD 5 0 ≠ 0x16 →
      MessageEAResponse.parse (some m) = Except.ok (r, EADecoded.nothing))
    ∧ (r.deviceProtocolVersion = 0 → r.messageType = 0x03 →
      8 ≤ r.body.length →
      ¬(r.body.getD 6 0 = 0x52 ∧ r.body.getD 7 0 = 0xC3) →
      r.body.getD 5 0 ≠ 0x3D →
      MessageEAResponse.parse (some m) = Except.ok (r, EADecoded.nothing))
    ∧ (r.deviceProtocolVersion = 0 → r.messageType = 0x04 →
      6 ≤ r.body.length → r.body.getD 5 0 ≠ 0x3D →
      MessageEAResponse.parse (some m) = Except.ok (r, EADecoded.nothing))
    ∧ (r.deviceProtocolVersion = 0 → r.messageType ≠ 0x02 →
      r.messageType ≠ 0x03 → r.messageType ≠ 0x04 →
      MessageEAResponse.parse (some m) = Except.ok (r, EADecoded.nothing))
    ∧ (r.deviceProtocolVersion ≠ 0 → r.messageType = 0x02 →
      4 ≤ r.body.length → r.body.getD 3 0 ≠ 0x02 →
      MessageEAResponse.parse (some m) = Except.ok (r, EADecoded.nothing))
    ∧ (r.deviceProtocolVersion ≠ 0 → r.messageType = 0x03 →
      4 ≤ r.body.length → r.body.getD 3 0 ≠ 0x03 →
      MessageEAResponse.parse (some m) = Except.ok (r, EADecoded.nothing))
    ∧ (r.deviceProtocolVersion ≠ 0 → r.messageType = 0x04 →
      4 ≤ r.body.length → r.body.getD 3 0 ≠ 0x04 → r.body.getD 3 0 ≠ 0x06 →
      MessageEAResponse.parse (some m) = Except.ok (r, EADecoded.nothing))
    ∧ (r.deviceProtocolVersion ≠ 0 → r.messageType ≠ 0x02 →
      r.messageType ≠ 0x03 → r.messageType ≠ 0x04 →
      MessageEAResponse.parse (some m) = Except.ok (r, EADecoded.nothing)) := by
  refine ⟨?_, ?_, ?_, ?_, ?_, ?_, ?_, ?_⟩
  · intro hdpv hmt hlen hb5
    rw [MessageEAResponse.parse, h]
    dsimp only
    rw [if_pos hdpv, if_pos hmt]
    simp only [pyGet_ok r.body 5 (by omega)]
    rw [if_neg hb5]
  · intro hdpv hmt hlen hb67 hb5
    rw [MessageEAResponse.parse, h]
    dsimp only
    rw [if_pos hdpv, if_neg (by omega : ¬ r.messageType = 0x02), if_pos hmt]
    simp only [pyGet_ok r.body 6 (by omega)]
    by_cases hb6 : r.body.getD 6 0 = 0x52
    · rw [if_pos hb6]
      simp only [pyGet_ok r.body 7 (by omega)]
      rw [if_neg (fun hb7 => hb67 ⟨hb6, hb7⟩)]
      simp only [pyGet_ok r.body 5 (by omega)]
      rw [if_neg hb5]
    · rw [if_neg hb6]
      simp only [pyGet_ok r.body 5 (by omega)]
      rw [if_neg hb5]
  · intro hdpv hmt hlen hb5
    rw [MessageEAResponse.parse, h]
    dsimp only
    rw [if_pos hdpv, if_neg (by omega : ¬ r.messageType = 0x02),
      if_neg (by omega : ¬ r.messageType = 0x03), if_pos hmt]
    simp only [pyGet_ok r.body 5 (by omega)]
    rw [if_neg hb5]
  · intro hdpv hmt2 hmt3 hmt4
    rw [MessageEAResponse.parse, h]
    dsimp only
    rw [if_pos hdpv, if_neg hmt2, if_neg hmt3, if_neg hmt4]
  · intro hdpv hmt hlen hb3
    rw [MessageEAResponse.parse, h]
    dsimp only
    rw [if_neg hdpv, if_pos hmt]
    simp only [pyGet_ok r.body 3 (by omega)]
    rw [if_neg hb3]
  · intro hdpv hmt hlen hb3
    rw [MessageEAResponse.parse, h]
    dsimp only
    rw [if_neg hdpv, if_neg (by omega : ¬ r.messageType = 0x02), if_pos hmt]
    simp only [pyGet_ok r.body 3 (by omega)]
    rw [if_neg hb3]
  · intro hdpv hmt hlen hb34 hb36
    rw [MessageEAResponse.parse, h]
    dsimp only
    rw [if_neg hdpv, if_neg (by omega : ¬ r.messageType = 0x02),
      if_neg (by omega : ¬ r.messageType = 0x03), if_pos hmt]
    simp only [pyGet_ok r.body 3 (by omega)]
    rw [if_neg hb34, if_neg hb36]
  · intro hdpv hmt2 hmt3 hmt4
    rw [MessageEAResponse.parse, h]
    dsimp only
    rw [if_neg hdpv, if_neg hmt2, if_neg hmt3, if_neg hmt4]

/-- C8 witness: a notify2-type frame decodes with no extra fields. -/
theorem ea_no_match_no_fields_witness :
    MessageEAResponse.parse
        (some [0xAA, 12, 0xEA, 0, 0, 0, 0, 0, 0, 0x05, 0x01, 0x02, 0x00])
      = Except.ok
          ({ header := [0xAA, 12, 0xEA, 0, 0, 0, 0, 0, 0, 0x05]
             deviceProtocolVersion := 0
             messageType := 0x05
             deviceType := 0xEA
             body := [0x01, 0x02]
             bodyType := 0x01 },
           EADecoded.nothing) := by
  have hx := (ea_no_match_no_fields
    [0xAA, 12, 0xEA, 0, 0, 0, 0, 0, 0, 0x05, 0x01, 0x02, 0x00]
    { header := [0xAA, 12, 0xEA, 0, 0, 0, 0, 0, 0, 0x05]
      deviceProtocolVersion := 0
      messageType := 0x05
      deviceType := 0xEA
      body := [0x01, 0x02]
      bodyType := 0x01 }
    (by rfl)).2.2.2.1 rfl (by decide) (by decide) (by decide)
  exact hx

end Midea
namespace Midea

lemma eaBody1_make_fields (body : List Nat) (b : EABody1)
    (h : EABody1.make body = Except.ok b) :
    b.cooking = decide (b.progress = 2)
    ∧ b.keep_warm = decide (b.progress = 3) := by
  rw [EABody1.make] at h
  split at h
  · injection h with h
    subst h
    exact ⟨rfl, rfl⟩
  all_goals simp at h

lemma eaBody2_make_fields (body : List Nat) (b : EABody2)
    (h : EABody2.make body = Except.ok b) :
    b.cooking = decide (b.progress = 2)
    ∧ b.keep_warm = decide (b.progress = 3) := by
  rw [EABody2.make] at h
  split at h
  · injection h with h
    subst h
    exact ⟨rfl, rfl⟩
  all_goals simp at h

lemma eaBody3_make_fields (body : List Nat) (b : EABody3)
    (h : EABody3.make body = Except.ok b) :
    b.cooking = decide (b.progress = 2)
    ∧ b.keep_warm = decide (b.progress = 3) := by
  rw [EABody3.make] at h
  split at h
  · injection h with h
    subst h
    exact ⟨rfl, rfl⟩
  all_goals simp at h

lemma ea_parse_shape (m : Option (List Nat)) (r : MessageResponse)
    (d : EADecoded)
    (h : MessageEAResponse.parse m = Except.ok (r, d)) :
    d = EADecoded.nothing
    ∨ (∃ b, d = EADecoded.body1 b ∧ EABody1.make r.body = Except.ok b)
    ∨ (∃ b, d = EADecoded.body2 b ∧ EABody2.make r.body = Except.ok b)
    ∨ (∃ b, d = EADecoded.body3 b ∧ EABody3.make r.body = Except.ok b)
    ∨ (∃ md, d = EADecoded.modeOnly md) := by
  rw [MessageEAResponse.parse] at h
  cases hp : MessageResponse.parse m with
  | error e =>
    rw [hp] at h
    exact (Except.noConfusion h)
  | ok r0 =>
    rw [hp] at h
    dsimp only at h
    repeat' split at h
    all_goals first
      | (injection h with hinj
         rw [Prod.mk.injEq] at hinj
         obtain ⟨hr, hd⟩ := hinj
         subst hr
         subst hd
         first
           | exact Or.inl rfl
           | exact Or.inr (Or.inl ⟨_, rfl, by assumption⟩)
           | exact Or.inr (Or.inr (Or.inl ⟨_, rfl, by assumption⟩))
           | exact Or.inr (Or.inr (Or.inr (Or.inl ⟨_, rfl, by assumption⟩)))
           | exact Or.inr (Or.inr (Or.inr (Or.inr ⟨_, rfl⟩))))
      | exact (Except.noConfusion h)

end Midea
namespace Midea

/-- C10: in every decoded EA body shape (`EABody1`, `EABody2`, `EABody3`),
`cooking` holds iff `progress = 2` and `keep_warm` holds iff
`progress = 3`; consequently `cooking` and `keep_warm` are never both
true, and the mutual exclusion carries over to every decoded body an EA
response exposes after field merging. -/
theorem ea_cooking_keep_warm_exclusive :
    (∀ body b, EABody1.make body = Except.ok b →
      (b.cooking = true ↔ b.progress = 2)
      ∧ (b.keep_warm = true ↔ b.progress = 3)
      ∧ ¬(b.cooking = true ∧ b.keep_warm = true))
    ∧ (∀ body b, EABody2.make body = Except.ok b →
      (b.cooking = true ↔ b.progress = 2)
      ∧ (b.keep_warm = true ↔ b.progress = 3)
      ∧ ¬(b.cooking = true ∧ b.keep_warm = true))
    ∧ (∀ body b, EABody3.make body = Except.ok b →
      (b.cooking = true ↔ b.progress = 2)
      ∧ (b.keep_warm = true ↔ b.progress = 3)
      ∧ ¬(b.cooking = true ∧ b.keep_warm = true))
    ∧ (∀ m r d, MessageEAResponse.parse m = Except.ok (r, d) →
      (∀ b, d = EADecoded.body1 b →
        ¬(b.cooking = true ∧ b.keep_warm = true))
      ∧ (∀ b, d = EADecoded.body2 b →
        ¬(b.cooking = true ∧ b.keep_warm = true))
      ∧ (∀ b, d = EADecoded.body3 b →
        ¬(b.cooking = true ∧ b.keep_warm = true))) := by
  have inv1 : ∀ body b, EABody1.make body = Except.ok b →
      (b.cooking = true ↔ b.progress = 2)
      ∧ (b.keep_warm = true ↔ b.progress = 3)
      ∧ ¬(b.cooking = true ∧ b.keep_warm = true) := by
    intro body b h
    obtain ⟨hc, hk⟩ := eaBody1_make_fields body b h
    rw [hc, hk]
    refine ⟨by simp, by simp, ?_⟩
    rintro ⟨h2, h3⟩
    simp at h2 h3
    omega
  have inv2 : ∀ body b, EABody2.make body = Except.ok b →
      (b.cooking = true ↔ b.progress = 2)
      ∧ (b.keep_warm = true ↔ b.progress = 3)
      ∧ ¬(b.cooking = true ∧ b.keep_warm = true) := by
    intro body b h
    obtain ⟨hc, hk⟩ := eaBody2_make_fields body b h
    rw [hc, hk]
    refine ⟨by simp, by simp, ?_⟩
    rintro ⟨h2, h3⟩
    simp at h2 h3
    omega
  have inv3 : ∀ body b, EABody3.make body = Except.ok b →
      (b.cooking = true ↔ b.progress = 2)
      ∧ (b.keep_warm = true ↔ b.progress = 3)
      ∧ ¬(b.cooking = true ∧ b.keep_warm = true) := by
    intro body b h
    obtain ⟨hc, hk⟩ := eaBody3_make_fields body b h
    rw [hc, hk]
    refine ⟨by simp, by simp, ?_⟩
    rintro ⟨h2, h3⟩
    simp at h2 h3
    omega
  refine ⟨inv1, inv2, inv3, ?_⟩
  intro m r d h
  rcases ea_parse_shape m r d h with
    hd | ⟨b0, rfl, hmk⟩ | ⟨b0, rfl, hmk⟩ | ⟨b0, rfl, hmk⟩ | ⟨md, rfl⟩
  · subst hd
    exact ⟨fun b hb => EADecoded.noConfusion hb,
      fun b hb => EADecoded.noConfusion hb,
      fun b hb => EADecoded.noConfusion hb⟩
  · refine ⟨?_, fun b hb => EADecoded.noConfusion hb,
      fun b hb => EADecoded.noConfusion hb⟩
    intro b hb
    injection hb with hb
    subst hb
    exact (inv1 r.body b0 hmk).2.2
  · refine ⟨fun b hb => EADecoded.noConfusion hb, ?_,
      fun b hb => EADecoded.noConfusion hb⟩
    intro b hb
    injection hb with hb
    subst hb
    exact (inv2 r.body b0 hmk).2.2
  · refine ⟨fun b hb => EADecoded.noConfusion hb,
      fun b hb => EADecoded.noConfusion hb, ?_⟩
    intro b hb
    injection hb with hb
    subst hb
    exact (inv3 r.body b0 hmk).2.2
  · exact ⟨fun b hb => EADecoded.noConfusion hb,
      fun b hb => EADecoded.noConfusion hb,
      fun b hb => EADecoded.noConfusion hb⟩

/-- C10 witness: mutual exclusion on a concretely decoded EABody1. -/
theorem ea_cooking_keep_warm_exclusive_witness :
    ¬(({ mode := 2 + (2 <<< 8)
         progress := 2
         cooking := true
         keep_warm := false
         top_temperature := 2
         bottom_temperature := 2
         time_remaining := 2 * 60 + 2
         keep_warm_time := 2 * 60 + 2 } : EABody1).cooking = true
      ∧ ({ mode := 2 + (2 <<< 8)
           progress := 2
           cooking := true
           keep_warm := false
           top_temperature := 2
           bottom_temperature := 2
           time_remaining := 2 * 60 + 2
           keep_warm_time := 2 * 60 + 2 } : EABody1).keep_warm = true) := by
  have h := ea_cooking_keep_warm_exclusive.1 (List.replicate 28 2)
    { mode := 2 + (2 <<< 8)
      progress := 2
      cooking := true
      keep_warm := false
      top_temperature := 2
      bottom_temperature := 2
      time_remaining := 2 * 60 + 2
      keep_warm_time := 2 * 60 + 2 }
    (by rfl)
  exact h.2.2

end Midea
